import Mathlib

/-!
Verification of the prune-candidacy planning logic of `docker-prune-plan`
(`src/docker_prune_plan/cli.py`), shallowly embedded in Lean 4.

Modelling conventions:
* Docker-engine record dictionaries become Lean structures; a field whose
  Python access pattern is `d.get(k) or default` is modelled directly with the
  defaulted value (missing and falsy collapse, exactly as in the source).
* Python `set` objects used only for membership tests are modelled as the
  `List` of elements added, in insertion order; membership is unchanged.
* Python `float` arithmetic in `human_size` is modelled with exact rationals;
  on all quantities the planners feed it, the one-decimal rendering of the
  exact value coincides with the rendering of the IEEE-double value, since the
  accumulated relative error of at most six double roundings is far below the
  distance from any intermediate value to a 0.05 rounding boundary.
* The Docker client is a structure of query results, one field per distinct
  `client.<method>(<args>)` call shape the planners issue; `inspect_network`
  returns `Option` with `none` standing for a raised `DockerException`.
-/

/-- `PruneItem` dataclass (cli.py lines 16-33). -/
structure PruneItem where
  item_type : String
  item_id : String
  name : String := ""
  size : Int := 0
  human_size : String := ""
  description : String := ""
deriving DecidableEq, Repr

/-- Python `s.startswith(p)`: `p` is a prefix of `s` (on code points). -/
def py_startswith (s p : String) : Bool :=
  p.toList.isPrefixOf s.toList

/-- Python `s.endswith(p)`: `p` is a suffix of `s` (on code points). -/
def py_endswith (s p : String) : Bool :=
  p.toList.isSuffixOf s.toList

/-- Python `sep.join(parts)`. -/
def py_join (sep : String) : List String → String
  | [] => ""
  | [x] => x
  | x :: y :: rest => x ++ sep ++ py_join sep (y :: rest)

/-- Nearest integer to the exact fraction `a / d` (with `d > 0` at every use
site), ties to even: the rounding used by Python's fixed-point string
formatting. -/
def round_half_even_div (a d : Nat) : Nat :=
  let q := a / d
  let r := a % d
  if 2 * r < d then q
  else if d < 2 * r then q + 1
  else if q % 2 = 0 then q else q + 1

/-- Python `f"{value:.1f}"` for the non-negative exact value `n / d`: one
forced decimal digit, correctly rounded. -/
def format_one_decimal (n d : Nat) : String :=
  let m := round_half_even_div (10 * n) d
  toString (m / 10) ++ "." ++ toString (m % 10)

/-- The `for suffix in suffixes` loop of `human_size` (cli.py lines 43-46):
the running float `value` is represented exactly as the fraction `n / d`
(`value < 1000` is `n < 1000 * d`; `value /= 1000.0` is `d := d * 1000`).
Break at the first suffix where the value dropped below 1000 or the suffix
list is exhausted, dividing by 1000 otherwise. -/
def human_size_loop : Nat → Nat → List String → Nat × Nat × String
  | n, d, [] => (n, d, "B")
  | n, d, [s] => (n, d, s)
  | n, d, s :: rest =>
      if n < 1000 * d then (n, d, s) else human_size_loop n (d * 1000) (rest)

/-- `human_size` (cli.py lines 36-50).  The final
`formatted.replace(".0" + suffix, suffix)` is guarded by an `endswith` test
and the formatted string contains the suffix only once, at its end, so the
replacement is exactly: drop the trailing `".0" ++ suffix`, append `suffix`. -/
def human_size (num : Int) : String :=
  if num = 0 then "0B"
  else
    let suffixes := ["B", "kB", "MB", "GB", "TB", "PB", "EB"]
    let negative := num < 0
    let vs := human_size_loop num.natAbs 1 suffixes
    let formatted := format_one_decimal vs.1 vs.2.1 ++ vs.2.2
    let formatted :=
      if py_endswith formatted (".0" ++ vs.2.2) then
        String.mk (formatted.toList.take (formatted.toList.length - (2 + vs.2.2.toList.length))) ++ vs.2.2
      else formatted
    if negative then "-" ++ formatted else formatted

/-- `short_id` (cli.py lines 97-102).  Under the `startswith("sha256:")`
guard, Python's `full_id.split(":", 1)[1]` is the text after the first colon,
i.e. drop up to and including the first `':'`. -/
def short_id (full_id : String) : String :=
  if full_id = "" then ""
  else
    let stripped :=
      if py_startswith full_id "sha256:" then
        String.mk ((full_id.toList.dropWhile (fun c => c ≠ ':')).drop 1)
      else full_id
    String.mk (stripped.toList.take 12)

/-- `normalize_image_id` (cli.py lines 114-117). -/
def normalize_image_id (v : String) : String :=
  if v = "" then ""
  else if py_startswith v "sha256:" then v
  else "sha256:" ++ v

/-- One character of the character class `[0-9a-f]`. -/
def is_lower_hex (c : Char) : Bool :=
  ('0' ≤ c && c ≤ '9') || ('a' ≤ c && c ≤ 'f')

/-- Python `re.fullmatch(r"[0-9a-f]{64}", s)` as a Boolean. -/
def full_hex64 (s : String) : Bool :=
  s.toList.length = 64 && s.toList.all is_lower_hex

/-- `is_probably_anonymous_volume` (cli.py lines 136-139):
`re.fullmatch(r"[0-9a-f]{32,64}", name)`. -/
def is_probably_anonymous_volume (name : String) : Bool :=
  if name = "" then false
  else decide (32 ≤ name.toList.length) && decide (name.toList.length ≤ 64)
    && name.toList.all is_lower_hex

/-- One mount descriptor of a container record (keys `Type`, `Name`);
`mtype` models the `Type` key (`Type` is reserved in Lean). -/
structure Mount where
  mtype : String := ""
  Name : String := ""
deriving DecidableEq

/-- One container record as consumed by the planners.  Each field models the
corresponding dictionary key, with the `d.get(k) or default` fallback already
applied (missing and falsy coincide in every use in the source). -/
structure ContainerRecord where
  Id : String := ""
  Names : List String := []
  Status : String := ""
  SizeRw : Int := 0
  ImageID : String := ""
  Image : String := ""
  Mounts : List Mount := []
deriving DecidableEq

/-- One image record (`client.images` element). `Created` is `none` when the
key is absent or not numeric (the `isinstance` test in cli.py line 191). -/
structure ImageRecord where
  Id : String := ""
  Size : Int := 0
  RepoTags : List String := []
  Created : Option Int := none
deriving DecidableEq

/-- One network record (`client.networks` element). -/
structure NetworkRecord where
  Id : String := ""
  Name : String := ""
deriving DecidableEq

/-- Result of `client.inspect_network`; only the `Containers` mapping is
consulted, and only for emptiness, so it is modelled by its key list. -/
structure NetworkDetail where
  Containers : List String := []
deriving DecidableEq

/-- The `UsageData` object of a volume record. -/
structure VolumeUsage where
  Size : Int := 0
deriving DecidableEq

/-- One volume record of the disk-usage report.  `UsageData := none` models a
missing or falsy `UsageData` key. -/
structure VolumeRecord where
  Name : String := ""
  UsageData : Option VolumeUsage := none
deriving DecidableEq

/-- One build-cache entry of the disk-usage report. -/
structure BuildCacheEntry where
  InUse : Bool := false
  Size : Int := 0
  ID : String := ""
  Description : String := ""
  LastUsedAt : String := ""
deriving DecidableEq

/-- The Docker engine as seen by one planning run: one field per distinct
query the planners issue.  `containers_stopped` is
`client.containers(all=True, filters={"status": [created, exited, dead]},
size=True)`; `containers_all` is `client.containers(all=True)`;
`images_dangling` and `images_all` are `client.images(all=True, ...)` with
and without the dangling filter; `df_volumes` and `df_build_cache` are the
`Volumes` and `BuildCache` keys of `client.df()`; `inspect_network` returns
`none` where the engine call raises `DockerException`; `iso_ts` models
`datetime.fromtimestamp(created, tz=timezone.utc).isoformat()`. -/
structure APIClient where
  containers_stopped : List ContainerRecord := []
  containers_all : List ContainerRecord := []
  images_dangling : List ImageRecord := []
  images_all : List ImageRecord := []
  networks : List NetworkRecord := []
  inspect_network : String → Option NetworkDetail := fun _ => none
  df_volumes : List VolumeRecord := []
  df_build_cache : List BuildCacheEntry := []
  iso_ts : Int → String := fun _ => ""

/-- `collect_used_volumes` (cli.py lines 105-111).  The Python `set` is
modelled as the list of names added, in iteration order; the planners only
test membership. -/
def collect_used_volumes (containers : List ContainerRecord) : List String :=
  containers.flatMap fun container =>
    (container.Mounts.filter fun mount =>
      mount.mtype = "volume" && mount.Name ≠ "").map Mount.Name

/-- `collect_used_images` (cli.py lines 120-133), with the `set` modelled as
the list of identifiers added. -/
def collect_used_images (containers : List ContainerRecord) : List String :=
  containers.flatMap fun container =>
    if container.ImageID ≠ "" then [normalize_image_id container.ImageID]
    else if container.Image ≠ ""
        && (py_startswith container.Image "sha256:" || full_hex64 container.Image) then
      [normalize_image_id container.Image]
    else []

/-- Python `name.lstrip("/")`: remove every leading `/`. -/
def py_lstrip_slash (s : String) : String :=
  String.mk (s.toList.dropWhile (fun c => c = '/'))

/-- The item one stopped container contributes (loop body, cli.py
lines 148-163). -/
def container_emit (container : ContainerRecord) : List PruneItem :=
  let name := match container.Names with
    | [] => ""
    | n :: _ => py_lstrip_slash n
  let status := container.Status
  let size := container.SizeRw
  [{ item_type := "Container"
     item_id := short_id container.Id
     name := name
     size := size
     human_size := human_size size
     description := if status ≠ "" then "Status: " ++ status else "Stopped container" }]

/-- `build_plan_container` (cli.py lines 142-164). -/
def build_plan_container (client : APIClient) : List PruneItem × Int :=
  client.containers_stopped.foldl
    (fun acc container => (acc.1 ++ container_emit container, acc.2 + container.SizeRw))
    ([], 0)

/-- The contribution of one image (loop body, cli.py lines 178-208): empty
when the image is skipped as in use. -/
def image_emit (iso_ts : Int → String) (used_images : List String)
    (include_all : Bool) (image : ImageRecord) : List PruneItem :=
  let image_id := image.Id
  if include_all && used_images.contains image_id then []
  else
    let size := image.Size
    let tags := image.RepoTags
    let name := if tags ≠ [] then py_join ", " tags else "<none>"
    let created_str := match image.Created with
      | some created => if 0 < created then iso_ts created else ""
      | none => ""
    let reason := if !include_all then "Dangling image" else "Unused image (no containers)"
    let desc := if created_str ≠ "" then reason ++ "; Created: " ++ created_str else reason
    [{ item_type := "Image"
       item_id := short_id image_id
       name := name
       size := size
       human_size := human_size size
       description := desc }]

/-- The size one image adds to the running total: zero when skipped. -/
def image_size_contrib (used_images : List String) (include_all : Bool)
    (image : ImageRecord) : Int :=
  if include_all && used_images.contains image.Id then 0 else image.Size

/-- `build_plan_image` (cli.py lines 167-210).  The engine-side dangling
filter selects between the two image listings. -/
def build_plan_image (client : APIClient) (include_all : Bool) : List PruneItem × Int :=
  let used_images := collect_used_images client.containers_all
  let images := if include_all then client.images_all else client.images_dangling
  images.foldl
    (fun acc image =>
      (acc.1 ++ image_emit client.iso_ts used_images include_all image,
       acc.2 + image_size_contrib used_images include_all image))
    ([], 0)

/-- The size read from a volume's usage data (cli.py lines 233-234). -/
def volume_usage_size (volume : VolumeRecord) : Int :=
  match volume.UsageData with
  | some usage => usage.Size
  | none => 0

/-- Whether the volume loop skips this volume (cli.py lines 226-231). -/
def volume_skip (used_volumes : List String) (include_all : Bool)
    (volume : VolumeRecord) : Bool :=
  volume.Name = "" || used_volumes.contains volume.Name
    || (!include_all && !is_probably_anonymous_volume volume.Name)

/-- The contribution of one volume (loop body, cli.py lines 225-251). -/
def volume_emit (used_volumes : List String) (include_all system_mode : Bool)
    (volume : VolumeRecord) : List PruneItem :=
  if volume_skip used_volumes include_all volume then []
  else
    let name := volume.Name
    let size := volume_usage_size volume
    let reason :=
      if system_mode then "Unused volume (anonymous)"
      else if !include_all then "Unused volume (anonymous)" else "Unused volume"
    [{ item_type := "Volume"
       item_id := name
       name := name
       size := size
       human_size := human_size size
       description := reason }]

/-- The size one volume adds to the running total: zero when skipped. -/
def volume_size_contrib (used_volumes : List String) (include_all : Bool)
    (volume : VolumeRecord) : Int :=
  if volume_skip used_volumes include_all volume then 0 else volume_usage_size volume

/-- `build_plan_volume` (cli.py lines 213-253). -/
def build_plan_volume (client : APIClient) (include_all system_mode : Bool) :
    List PruneItem × Int :=
  let used_volumes := collect_used_volumes client.containers_all
  client.df_volumes.foldl
    (fun acc volume =>
      (acc.1 ++ volume_emit used_volumes include_all system_mode volume,
       acc.2 + volume_size_contrib used_volumes include_all volume))
    ([], 0)

/-- The contribution of one network (loop body, cli.py lines 261-285): empty
for the reserved names `bridge`, `host`, `none`, for a failed inspection and
for a network with attached containers.  Note the source never adds to the
network total. -/
def network_emit (inspect : String → Option NetworkDetail)
    (net : NetworkRecord) : List PruneItem :=
  let net_id := net.Id
  let name := net.Name
  if name = "bridge" || name = "host" || name = "none" then []
  else
    match inspect net_id with
    | none => []
    | some info =>
        if info.Containers ≠ [] then []
        else
          [{ item_type := "Network"
             item_id := short_id net_id
             name := name
             size := 0
             human_size := "0B"
             description := "Unused network" }]

/-- `build_plan_network` (cli.py lines 256-287). -/
def build_plan_network (client : APIClient) : List PruneItem × Int :=
  client.networks.foldl
    (fun acc net => (acc.1 ++ network_emit client.inspect_network net, acc.2))
    ([], 0)

/-- The contribution of one build-cache entry (loop body, cli.py
lines 295-313): empty when the entry is in use. -/
def build_cache_emit (entry : BuildCacheEntry) : List PruneItem :=
  if entry.InUse then []
  else
    let size := entry.Size
    let build_id := entry.ID
    let desc := entry.Description
    let last_used := entry.LastUsedAt
    let info := py_join "; " (([desc, "Last used: " ++ last_used]).filter (fun p => p ≠ ""))
    [{ item_type := "BuildCache"
       item_id := short_id build_id
       name := desc
       size := size
       human_size := human_size size
       description := info }]

/-- The size one build-cache entry adds to the running total. -/
def build_cache_size_contrib (entry : BuildCacheEntry) : Int :=
  if entry.InUse then 0 else entry.Size

/-- `build_plan_build_cache` (cli.py lines 290-314). -/
def build_plan_build_cache (client : APIClient) : List PruneItem × Int :=
  client.df_build_cache.foldl
    (fun acc entry =>
      (acc.1 ++ build_cache_emit entry, acc.2 + build_cache_size_contrib entry))
    ([], 0)

/-- `build_plan_system` (cli.py lines 317-344): concatenate the sub-plans and
add up the sub-totals, with the volume step guarded by `include_volumes`. -/
def build_plan_system (client : APIClient) (include_all_images include_volumes : Bool) :
    List PruneItem × Int :=
  let r1 := build_plan_container client
  let r2 := build_plan_network client
  let r3 := build_plan_image client include_all_images
  let r4 := if include_volumes then build_plan_volume client false true else ([], 0)
  let r5 := build_plan_build_cache client
  (r1.1 ++ r2.1 ++ r3.1 ++ r4.1 ++ r5.1, r1.2 + r2.2 + r3.2 + r4.2 + r5.2)

/-- Witness client for C6: one stopped container, so the volume-free system
plan is non-empty. -/
def c6_client : APIClient :=
  { containers_stopped := [{ Id := "c1", Names := ["/web"], Status := "Exited", SizeRw := 4 }] }

/-- The one candidate of `c6_client`'s volume-free system plan. -/
def c6_item : PruneItem :=
  { item_type := "Container", item_id := "c1", name := "web", size := 4,
    human_size := "4B", description := "Status: Exited" }

/-- Witness client for C10: one stopped container. -/
def c10_client : APIClient :=
  { containers_stopped := [{ Id := "c9", SizeRw := 1500 }] }

/-- The one candidate of `c10_client`'s container plan. -/
def c10_item : PruneItem :=
  { item_type := "Container", item_id := "c9", name := "", size := 1500,
    human_size := "1.5kB", description := "Stopped container" }

/-- A client whose listing holds a single unattached network named
`ingress`. -/
def ingress_client : APIClient :=
  { networks := [{ Id := "n1", Name := "ingress" }],
    inspect_network := fun _ => some {} }

/-- A client with one unattached user-defined network. -/
def c2_client : APIClient :=
  { networks := [{ Id := "n2", Name := "mynet" }],
    inspect_network := fun _ => some {} }

/-- The one candidate of `c2_client`'s network plan. -/
def c2_item : PruneItem :=
  { item_type := "Network", item_id := "n2", name := "mynet", size := 0,
    human_size := "0B", description := "Unused network" }

/-- A client with one unused anonymous volume and no containers. -/
def c5_client : APIClient :=
  { df_volumes := [{ Name := "0123456789abcdef0123456789abcdef",
                     UsageData := some { Size := 10 } }] }

/-- The one candidate of `c5_client`'s volume plan. -/
def c5_item : PruneItem :=
  { item_type := "Volume", item_id := "0123456789abcdef0123456789abcdef",
    name := "0123456789abcdef0123456789abcdef", size := 10, human_size := "10B",
    description := "Unused volume (anonymous)" }

/-- A client with one not-in-use build-cache entry whose last-used timestamp
is empty. -/
def c8_client : APIClient :=
  { df_build_cache := [{ InUse := false, Size := 7, ID := "cachelayer01",
                         Description := "layer", LastUsedAt := "" }] }

/-- A client with three unattached user-defined networks whose inspection
fails on the middle one. -/
def c9_client : APIClient :=
  { networks := [{ Id := "na", Name := "net-a" }, { Id := "nb", Name := "net-b" },
                 { Id := "nc", Name := "net-c" }],
    inspect_network := fun i => if i = "nb" then none else some {} }

/-- A 64-character lowercase-hex identifier used by the C4 witness. -/
def c4_hex : String :=
  "aaaaaaaaaaaaaaaaaaaaaaaaaaaaaaaaaaaaaaaaaaaaaaaaaaaaaaaaaaaaaaaa"

/-- A container whose image-id field is empty and whose image-name field is
the bare 64-hex digest. -/
def c4_container : ContainerRecord := { Image := c4_hex }

/-- The image carrying the digest-prefixed form of `c4_hex`. -/
def c4_image : ImageRecord := { Id := "sha256:" ++ c4_hex, Size := 100 }

/-- Witness client for C4. -/
def c4_client : APIClient :=
  { containers_all := [c4_container], images_all := [c4_image] }

/-- A planner loop of the source's shape — extend the plan by this element's
items, add this element's size contribution — unfolds to a `flatMap` of the
per-element items and a sum of the per-element contributions. -/
theorem foldl_plan_char {α : Type} (step : List PruneItem × Int → α → List PruneItem × Int)
    (emit : α → List PruneItem) (contrib : α → Int)
    (hstep : ∀ acc x, step acc x = (acc.1 ++ emit x, acc.2 + contrib x)) :
    ∀ (l : List α) (p : List PruneItem) (t : Int),
      l.foldl step (p, t) = (p ++ l.flatMap emit, t + (l.map contrib).sum) := by
  intro l
  induction l with
  | nil => intro p t; simp
  | cons x xs ih =>
      intro p t
      rw [List.foldl_cons, hstep, ih]
      simp [add_assoc]

/-- `build_plan_container` as per-container items plus the sum of sizes. -/
theorem build_plan_container_char (client : APIClient) :
    build_plan_container client =
      (client.containers_stopped.flatMap container_emit,
       (client.containers_stopped.map ContainerRecord.SizeRw).sum) := by
  have h := foldl_plan_char
    (fun acc container => (acc.1 ++ container_emit container, acc.2 + container.SizeRw))
    container_emit (fun container => container.SizeRw) (fun _ _ => rfl)
    client.containers_stopped [] 0
  simpa [build_plan_container] using h

/-- `build_plan_image` as per-image items plus the sum of contributions. -/
theorem build_plan_image_char (client : APIClient) (include_all : Bool) :
    build_plan_image client include_all =
      (((if include_all then client.images_all else client.images_dangling).flatMap
          (image_emit client.iso_ts (collect_used_images client.containers_all) include_all)),
       ((if include_all then client.images_all else client.images_dangling).map
          (image_size_contrib (collect_used_images client.containers_all) include_all)).sum) := by
  have h := foldl_plan_char
    (fun acc image =>
      (acc.1 ++ image_emit client.iso_ts (collect_used_images client.containers_all) include_all image,
       acc.2 + image_size_contrib (collect_used_images client.containers_all) include_all image))
    (image_emit client.iso_ts (collect_used_images client.containers_all) include_all)
    (image_size_contrib (collect_used_images client.containers_all) include_all)
    (fun _ _ => rfl)
    (if include_all then client.images_all else client.images_dangling) [] 0
  simpa [build_plan_image] using h

/-- `build_plan_volume` as per-volume items plus the sum of contributions. -/
theorem build_plan_volume_char (client : APIClient) (include_all system_mode : Bool) :
    build_plan_volume client include_all system_mode =
      (client.df_volumes.flatMap
         (volume_emit (collect_used_volumes client.containers_all) include_all system_mode),
       (client.df_volumes.map
         (volume_size_contrib (collect_used_volumes client.containers_all) include_all)).sum) := by
  have h := foldl_plan_char
    (fun acc volume =>
      (acc.1 ++ volume_emit (collect_used_volumes client.containers_all) include_all system_mode volume,
       acc.2 + volume_size_contrib (collect_used_volumes client.containers_all) include_all volume))
    (volume_emit (collect_used_volumes client.containers_all) include_all system_mode)
    (volume_size_contrib (collect_used_volumes client.containers_all) include_all)
    (fun _ _ => rfl)
    client.df_volumes [] 0
  simpa [build_plan_volume] using h

/-- `build_plan_network` as per-network items; the total is zero since the
source never adds to it. -/
theorem build_plan_network_char (client : APIClient) :
    build_plan_network client =
      (client.networks.flatMap (network_emit client.inspect_network), 0) := by
  have h := foldl_plan_char
    (fun acc net => (acc.1 ++ network_emit client.inspect_network net, acc.2))
    (network_emit client.inspect_network) (fun _ => 0)
    (fun _ _ => by simp)
    client.networks [] 0
  simpa [build_plan_network] using h

/-- `build_plan_build_cache` as per-entry items plus the sum of
contributions. -/
theorem build_plan_build_cache_char (client : APIClient) :
    build_plan_build_cache client =
      (client.df_build_cache.flatMap build_cache_emit,
       (client.df_build_cache.map build_cache_size_contrib).sum) := by
  have h := foldl_plan_char
    (fun acc entry => (acc.1 ++ build_cache_emit entry, acc.2 + build_cache_size_contrib entry))
    build_cache_emit build_cache_size_contrib (fun _ _ => rfl)
    client.df_build_cache [] 0
  simpa [build_plan_build_cache] using h

/-- Summing a projection over a `flatMap` is summing the per-element sums. -/
theorem sum_map_flatMap {α : Type} (l : List α) (f : α → List PruneItem) (g : PruneItem → Int) :
    ((l.flatMap f).map g).sum = (l.map (fun x => ((f x).map g).sum)).sum := by
  induction l with
  | nil => simp
  | cons x xs ih => simp [ih]

/-- The item a container contributes carries exactly the size added to the
container total. -/
theorem container_emit_size (container : ContainerRecord) :
    ((container_emit container).map PruneItem.size).sum = container.SizeRw := by
  simp [container_emit]

/-- The items an image contributes carry exactly the size added to the image
total. -/
theorem image_emit_size (iso_ts : Int → String) (used_images : List String)
    (include_all : Bool) (image : ImageRecord) :
    ((image_emit iso_ts used_images include_all image).map PruneItem.size).sum =
      image_size_contrib used_images include_all image := by
  simp only [image_emit, image_size_contrib]
  by_cases hc : include_all = true ∧ image.Id ∈ used_images
  · simp [hc]
  · simp [hc]

/-- The items a volume contributes carry exactly the size added to the volume
total. -/
theorem volume_emit_size (used_volumes : List String) (include_all system_mode : Bool)
    (volume : VolumeRecord) :
    ((volume_emit used_volumes include_all system_mode volume).map PruneItem.size).sum =
      volume_size_contrib used_volumes include_all volume := by
  unfold volume_emit volume_size_contrib
  cases h : volume_skip used_volumes include_all volume <;> simp [h]

/-- Network items carry size zero, matching the untouched network total. -/
theorem network_emit_size (inspect : String → Option NetworkDetail) (net : NetworkRecord) :
    ((network_emit inspect net).map PruneItem.size).sum = 0 := by
  simp only [network_emit]
  split
  · simp
  · cases h : inspect net.Id with
    | none => simp [h]
    | some info => simp only [h]; split <;> simp

/-- The items a build-cache entry contributes carry exactly the size added to
the build-cache total. -/
theorem build_cache_emit_size (entry : BuildCacheEntry) :
    ((build_cache_emit entry).map PruneItem.size).sum = build_cache_size_contrib entry := by
  unfold build_cache_emit build_cache_size_contrib
  cases h : entry.InUse <;> simp [h]

/-- Container planner total is the sum of its candidates' sizes. -/
theorem plan_total_container (client : APIClient) :
    (build_plan_container client).2 =
      ((build_plan_container client).1.map PruneItem.size).sum := by
  rw [build_plan_container_char]
  simp [sum_map_flatMap, container_emit_size]

/-- Image planner total is the sum of its candidates' sizes. -/
theorem plan_total_image (client : APIClient) (include_all : Bool) :
    (build_plan_image client include_all).2 =
      ((build_plan_image client include_all).1.map PruneItem.size).sum := by
  rw [build_plan_image_char]
  simp [sum_map_flatMap, image_emit_size]

/-- Volume planner total is the sum of its candidates' sizes. -/
theorem plan_total_volume (client : APIClient) (include_all system_mode : Bool) :
    (build_plan_volume client include_all system_mode).2 =
      ((build_plan_volume client include_all system_mode).1.map PruneItem.size).sum := by
  rw [build_plan_volume_char]
  simp [sum_map_flatMap, volume_emit_size]

/-- Network planner total is the sum of its candidates' sizes (both zero). -/
theorem plan_total_network (client : APIClient) :
    (build_plan_network client).2 =
      ((build_plan_network client).1.map PruneItem.size).sum := by
  rw [build_plan_network_char]
  simp [sum_map_flatMap, network_emit_size]

/-- Build-cache planner total is the sum of its candidates' sizes. -/
theorem plan_total_build_cache (client : APIClient) :
    (build_plan_build_cache client).2 =
      ((build_plan_build_cache client).1.map PruneItem.size).sum := by
  rw [build_plan_build_cache_char]
  simp [sum_map_flatMap, build_cache_emit_size]

/-- System planner total is the sum of its candidates' sizes. -/
theorem plan_total_system (client : APIClient) (ia iv : Bool) :
    (build_plan_system client ia iv).2 =
      ((build_plan_system client ia iv).1.map PruneItem.size).sum := by
  have h4 : (if iv then build_plan_volume client false true else ([], 0)).2
      = ((if iv then build_plan_volume client false true else ([], 0)).1.map PruneItem.size).sum := by
    cases iv
    · simp
    · simpa using plan_total_volume client false true
  unfold build_plan_system
  simp only [List.map_append, List.sum_append]
  rw [plan_total_container, plan_total_network, plan_total_image, plan_total_build_cache, h4]

/-- Shape of a container candidate: kind, and coherent human size. -/
theorem mem_container_emit {container : ContainerRecord} {item : PruneItem}
    (h : item ∈ container_emit container) :
    item.item_type = "Container" ∧ item.size = container.SizeRw
      ∧ item.human_size = human_size container.SizeRw := by
  simp only [container_emit, List.mem_singleton] at h
  subst h
  exact ⟨rfl, rfl, rfl⟩

/-- Shape of an image candidate: kind, coherent human size, and the fact that
the image was not skipped as in use. -/
theorem mem_image_emit {iso_ts : Int → String} {used_images : List String}
    {include_all : Bool} {image : ImageRecord} {item : PruneItem}
    (h : item ∈ image_emit iso_ts used_images include_all image) :
    item.item_type = "Image" ∧ item.size = image.Size
      ∧ item.human_size = human_size image.Size
      ∧ ¬(include_all = true ∧ image.Id ∈ used_images) := by
  simp only [image_emit] at h
  split at h
  · simp at h
  · next hc =>
      simp only [List.mem_singleton] at h
      subst h
      exact ⟨rfl, rfl, rfl, by simpa using hc⟩

/-- Shape of a volume candidate: kind, name, coherent human size, and the
fact that the skip tests all failed. -/
theorem mem_volume_emit {used_volumes : List String} {include_all system_mode : Bool}
    {volume : VolumeRecord} {item : PruneItem}
    (h : item ∈ volume_emit used_volumes include_all system_mode volume) :
    item.item_type = "Volume" ∧ item.name = volume.Name
      ∧ item.size = volume_usage_size volume
      ∧ item.human_size = human_size (volume_usage_size volume)
      ∧ volume_skip used_volumes include_all volume = false := by
  simp only [volume_emit] at h
  cases hs : volume_skip used_volumes include_all volume with
  | true => simp [hs] at h
  | false =>
      simp only [hs, Bool.false_eq_true, if_false, List.mem_singleton] at h
      subst h
      exact ⟨rfl, rfl, rfl, rfl, rfl⟩

/-- Shape of a network candidate: kind, name, zero size, hard-coded human
size, and the fact that the name is not reserved. -/
theorem mem_network_emit {inspect : String → Option NetworkDetail}
    {net : NetworkRecord} {item : PruneItem}
    (h : item ∈ network_emit inspect net) :
    item.item_type = "Network" ∧ item.name = net.Name ∧ item.size = 0
      ∧ item.human_size = "0B"
      ∧ ¬(net.Name = "bridge" ∨ net.Name = "host" ∨ net.Name = "none") := by
  simp only [network_emit] at h
  by_cases hres : net.Name = "bridge" ∨ net.Name = "host" ∨ net.Name = "none"
  · rcases hres with h1 | h1 | h1 <;> simp [h1] at h
  · have hb : (decide (net.Name = "bridge") || decide (net.Name = "host")
        || decide (net.Name = "none")) = false := by
      simp only [Bool.or_eq_false_iff, decide_eq_false_iff_not]
      exact ⟨⟨fun h1 => hres (Or.inl h1), fun h1 => hres (Or.inr (Or.inl h1))⟩,
        fun h1 => hres (Or.inr (Or.inr h1))⟩
    rw [hb] at h
    simp only [Bool.false_eq_true, if_false] at h
    cases hi : inspect net.Id with
    | none => rw [hi] at h; simp at h
    | some info =>
        rw [hi] at h
        by_cases hc : info.Containers = []
        · simp only [hc, ne_eq, not_true_eq_false, if_false, List.mem_singleton] at h
          subst h
          exact ⟨rfl, rfl, rfl, rfl, hres⟩
        · simp [hc] at h

/-- Shape of a build-cache candidate: kind, source fields, coherent human
size, and the fact that the entry was not in use. -/
theorem mem_build_cache_emit {entry : BuildCacheEntry} {item : PruneItem}
    (h : item ∈ build_cache_emit entry) :
    item.item_type = "BuildCache" ∧ item.size = entry.Size
      ∧ item.human_size = human_size entry.Size
      ∧ entry.InUse = false := by
  simp only [build_cache_emit] at h
  cases hu : entry.InUse with
  | true => simp [hu] at h
  | false =>
      simp only [hu, Bool.false_eq_true, if_false, List.mem_singleton] at h
      subst h
      exact ⟨rfl, rfl, rfl, rfl⟩

/-- C1: For every engine snapshot, the integer total returned by each of the
five per-type planners and by the composed system planner equals the exact
sum of the `size` fields of the candidates in the list it returns — integer
addition throughout, one summand per candidate. -/
theorem C1_plan_totals_are_exact_sums (client : APIClient) (ia sm iv : Bool) :
    (build_plan_container client).2 = ((build_plan_container client).1.map PruneItem.size).sum
  ∧ (build_plan_image client ia).2 = ((build_plan_image client ia).1.map PruneItem.size).sum
  ∧ (build_plan_volume client ia sm).2 = ((build_plan_volume client ia sm).1.map PruneItem.size).sum
  ∧ (build_plan_network client).2 = ((build_plan_network client).1.map PruneItem.size).sum
  ∧ (build_plan_build_cache client).2 = ((build_plan_build_cache client).1.map PruneItem.size).sum
  ∧ (build_plan_system client ia iv).2 = ((build_plan_system client ia iv).1.map PruneItem.size).sum :=
  ⟨plan_total_container client, plan_total_image client ia, plan_total_volume client ia sm,
   plan_total_network client, plan_total_build_cache client, plan_total_system client ia iv⟩

/-- Every container-planner candidate has kind `Container` and a coherent
human size. -/
theorem plan_item_container {client : APIClient} {item : PruneItem}
    (h : item ∈ (build_plan_container client).1) :
    item.item_type = "Container" ∧ item.human_size = human_size item.size := by
  rw [build_plan_container_char] at h
  rcases List.mem_flatMap.mp h with ⟨c, -, hm⟩
  obtain ⟨ht, hs, hh⟩ := mem_container_emit hm
  exact ⟨ht, by rw [hs, hh]⟩

/-- Every image-planner candidate has kind `Image` and a coherent human
size. -/
theorem plan_item_image {client : APIClient} {include_all : Bool} {item : PruneItem}
    (h : item ∈ (build_plan_image client include_all).1) :
    item.item_type = "Image" ∧ item.human_size = human_size item.size := by
  rw [build_plan_image_char] at h
  rcases List.mem_flatMap.mp h with ⟨img, -, hm⟩
  obtain ⟨ht, hs, hh, -⟩ := mem_image_emit hm
  exact ⟨ht, by rw [hs, hh]⟩

/-- Every volume-planner candidate has kind `Volume` and a coherent human
size. -/
theorem plan_item_volume {client : APIClient} {include_all system_mode : Bool}
    {item : PruneItem}
    (h : item ∈ (build_plan_volume client include_all system_mode).1) :
    item.item_type = "Volume" ∧ item.human_size = human_size item.size := by
  rw [build_plan_volume_char] at h
  rcases List.mem_flatMap.mp h with ⟨v, -, hm⟩
  obtain ⟨ht, -, hs, hh, -⟩ := mem_volume_emit hm
  exact ⟨ht, by rw [hs, hh]⟩

/-- Every network-planner candidate has kind `Network` and a coherent human
size (`human_size 0 = "0B"`). -/
theorem plan_item_network {client : APIClient} {item : PruneItem}
    (h : item ∈ (build_plan_network client).1) :
    item.item_type = "Network" ∧ item.human_size = human_size item.size := by
  rw [build_plan_network_char] at h
  rcases List.mem_flatMap.mp h with ⟨net, -, hm⟩
  obtain ⟨ht, -, hs, hh, -⟩ := mem_network_emit hm
  refine ⟨ht, ?_⟩
  rw [hs, hh]
  decide

/-- Every build-cache-planner candidate has kind `BuildCache` and a coherent
human size. -/
theorem plan_item_build_cache {client : APIClient} {item : PruneItem}
    (h : item ∈ (build_plan_build_cache client).1) :
    item.item_type = "BuildCache" ∧ item.human_size = human_size item.size := by
  rw [build_plan_build_cache_char] at h
  rcases List.mem_flatMap.mp h with ⟨e, -, hm⟩
  obtain ⟨ht, hs, hh, -⟩ := mem_build_cache_emit hm
  exact ⟨ht, by rw [hs, hh]⟩

/-- The system plan is the concatenation of the sub-plans in source order. -/
theorem system_plan_decompose (client : APIClient) (ia iv : Bool) :
    (build_plan_system client ia iv).1 =
      (build_plan_container client).1 ++ (build_plan_network client).1
        ++ (build_plan_image client ia).1
        ++ (if iv then (build_plan_volume client false true).1 else [])
        ++ (build_plan_build_cache client).1 := by
  cases iv <;> rfl

/-- C6: the system planner composes the sub-plans in the fixed order
Container, Network, Image, Volume (only when volume inclusion was requested,
and then with `include_all = false`, `system_mode = true`), Build-Cache,
each sub-plan's internal order preserved; and without the volume flag the
system plan contains no `Volume`-kind candidate. -/
theorem C6_system_order_and_volume_gating (client : APIClient) (ia iv : Bool) :
    ((build_plan_system client ia iv).1 =
       (build_plan_container client).1 ++ (build_plan_network client).1
         ++ (build_plan_image client ia).1
         ++ (if iv then (build_plan_volume client false true).1 else [])
         ++ (build_plan_build_cache client).1)
    ∧ (∀ item ∈ (build_plan_system client ia false).1, item.item_type ≠ "Volume") := by
  refine ⟨system_plan_decompose client ia iv, ?_⟩
  intro item h
  rw [system_plan_decompose] at h
  simp only [if_neg (Bool.false_ne_true), List.append_nil, List.mem_append] at h
  rcases h with ((hc | hn) | hi) | hb
  · rw [(plan_item_container hc).1]; decide
  · rw [(plan_item_network hn).1]; decide
  · rw [(plan_item_image hi).1]; decide
  · rw [(plan_item_build_cache hb).1]; decide

/-- C6 witness: the second conjunct applied at a concrete system plan item. -/
theorem C6_system_order_and_volume_gating_witness : c6_item.item_type ≠ "Volume" :=
  (C6_system_order_and_volume_gating c6_client false false).2 c6_item (by decide)

/-- C10: every candidate produced by any of the five planners and by the
system planner satisfies `human_size = human_size size` (the Network
planner's hard-coded `"0B"` matches `human_size 0`). -/
theorem C10_human_size_field_coherent (client : APIClient) (ia sm iv : Bool)
    (item : PruneItem) :
    (item ∈ (build_plan_container client).1 → item.human_size = human_size item.size)
  ∧ (item ∈ (build_plan_image client ia).1 → item.human_size = human_size item.size)
  ∧ (item ∈ (build_plan_volume client ia sm).1 → item.human_size = human_size item.size)
  ∧ (item ∈ (build_plan_network client).1 → item.human_size = human_size item.size)
  ∧ (item ∈ (build_plan_build_cache client).1 → item.human_size = human_size item.size)
  ∧ (item ∈ (build_plan_system client ia iv).1 → item.human_size = human_size item.size) := by
  refine ⟨fun h => (plan_item_container h).2, fun h => (plan_item_image h).2,
    fun h => (plan_item_volume h).2, fun h => (plan_item_network h).2,
    fun h => (plan_item_build_cache h).2, fun h => ?_⟩
  rw [system_plan_decompose] at h
  simp only [List.mem_append] at h
  rcases h with (((hc | hn) | hi) | hv) | hb
  · exact (plan_item_container hc).2
  · exact (plan_item_network hn).2
  · exact (plan_item_image hi).2
  · cases iv with
    | true => exact (plan_item_volume (by simpa using hv)).2
    | false => simp at hv
  · exact (plan_item_build_cache hb).2

/-- C10 witness: coherence at a concrete container candidate. -/
theorem C10_human_size_field_coherent_witness :
    c10_item.human_size = human_size c10_item.size :=
  (C10_human_size_field_coherent c10_client false false false c10_item).1 (by decide)

/-- C2 counterexample: the source excludes only `bridge`, `host` and `none`
(cli.py line 264); an unattached network named `ingress` IS listed as a
candidate, so the claim that `ingress` is never a candidate is false. -/
theorem C2_counterexample :
    (build_plan_network ingress_client).1 =
      [{ item_type := "Network", item_id := "n1", name := "ingress", size := 0,
         human_size := "0B", description := "Unused network" }] := by
  decide

/-- C2 (amended): a network named `bridge`, `host` or `none` is never a
candidate in the Network planner's output, regardless of attachment state;
`ingress` is not special-cased (it is excluded only by the generic
attachment / inspection tests). -/
theorem C2_amended_reserved_names_excluded (client : APIClient) (item : PruneItem)
    (h : item ∈ (build_plan_network client).1) :
    item.name ≠ "bridge" ∧ item.name ≠ "host" ∧ item.name ≠ "none" := by
  rw [build_plan_network_char] at h
  rcases List.mem_flatMap.mp h with ⟨net, -, hm⟩
  obtain ⟨-, hname, -, -, hres⟩ := mem_network_emit hm
  rw [hname]
  exact ⟨fun h1 => hres (Or.inl h1), fun h1 => hres (Or.inr (Or.inl h1)),
    fun h1 => hres (Or.inr (Or.inr h1))⟩

/-- C2 witness: the amended exclusion applied at a concrete candidate. -/
theorem C2_amended_reserved_names_excluded_witness :
    c2_item.name ≠ "bridge" ∧ c2_item.name ≠ "host" ∧ c2_item.name ≠ "none" :=
  C2_amended_reserved_names_excluded c2_client c2_item (by decide)

/-- C3 counterexample: two of the spec's four test vectors are false on the
code.  `human_size (-2000)` is `"-2kB"`: the value 2.0 formats as `"2.0kB"`
and the source then elides the trailing `".0"` (its own stated rule), so the
expected `"-2.0kB"` never appears.  `human_size 999999999999` is `"1000GB"`:
the loop stops at `GB` because 999.999999999 < 1000, and one-decimal
formatting then rounds the mantissa up to 1000.0 without advancing the unit,
so `"1.0TB"` never appears. -/
theorem C3_counterexample :
    human_size (-2000) ≠ "-2.0kB" ∧ human_size 999999999999 ≠ "1.0TB" := by
  decide

/-- C3 (amended): the formatter's actual vectors are
`human_size 0 = "0B"`, `human_size 1500 = "1.5kB"`,
`human_size (-2000) = "-2kB"` (trailing `.0` elided, `-` prefixed) and
`human_size 999999999999 = "1000GB"` (the mantissa rounds to 1000.0 at the
formatting step but the unit does not advance). -/
theorem C3_amended_human_size_vectors :
    human_size 0 = "0B" ∧ human_size 1500 = "1.5kB"
      ∧ human_size (-2000) = "-2kB" ∧ human_size 999999999999 = "1000GB" := by
  decide

/-- Any non-empty name mounted as a volume on a listed container is in the
used-volumes set. -/
theorem mem_collect_used_volumes {containers : List ContainerRecord}
    {container : ContainerRecord} {mount : Mount}
    (hc : container ∈ containers) (hm : mount ∈ container.Mounts)
    (hty : mount.mtype = "volume") (hne : mount.Name ≠ "") :
    mount.Name ∈ collect_used_volumes containers := by
  unfold collect_used_volumes
  refine List.mem_flatMap.mpr ⟨container, hc, ?_⟩
  refine List.mem_map.mpr ⟨mount, ?_, rfl⟩
  refine List.mem_filter.mpr ⟨hm, ?_⟩
  simp [hty, hne]

/-- C5: under every combination of the `include_all` and `system_mode` flags,
a volume with an empty name, or a name mounted as a volume on any container
in the listing, is never a candidate of the Volume planner. -/
theorem C5_used_and_unnamed_volumes_never_candidates (client : APIClient)
    (include_all system_mode : Bool) (item : PruneItem)
    (h : item ∈ (build_plan_volume client include_all system_mode).1) :
    item.name ≠ "" ∧ ∀ container ∈ client.containers_all, ∀ mount ∈ container.Mounts,
      mount.mtype = "volume" → mount.Name ≠ item.name := by
  rw [build_plan_volume_char] at h
  rcases List.mem_flatMap.mp h with ⟨v, -, hm⟩
  obtain ⟨-, hname, -, -, hskip⟩ := mem_volume_emit hm
  simp only [volume_skip, Bool.or_eq_false_iff, decide_eq_false_iff_not] at hskip
  obtain ⟨⟨hne, hused⟩, -⟩ := hskip
  have hnotused : v.Name ∉ collect_used_volumes client.containers_all := by
    simpa using hused
  refine ⟨by rw [hname]; exact hne, ?_⟩
  intro container hc mount hmnt hty heq
  rw [hname] at heq
  exact hnotused (heq ▸ mem_collect_used_volumes hc hmnt hty (by rw [heq]; exact hne))

/-- C5 witness: the exclusion facts at a concrete volume candidate. -/
theorem C5_used_and_unnamed_volumes_never_candidates_witness :
    c5_item.name ≠ "" ∧ ∀ container ∈ c5_client.containers_all,
      ∀ mount ∈ container.Mounts, mount.mtype = "volume" → mount.Name ≠ c5_item.name :=
  C5_used_and_unnamed_volumes_never_candidates c5_client false false c5_item (by decide)

/-- `"Last used: " ++ ts` is never the empty string, for any timestamp. -/
theorem last_used_ne_empty (ts : String) : ("Last used: " ++ ts) ≠ "" := by
  intro h
  have hlen := congrArg String.length h
  rw [String.length_append] at hlen
  have h11 : ("Last used: " : String).length = 11 := rfl
  rw [h11] at hlen
  simp at hlen

/-- The build-cache description join, in closed form: the description side is
omitted when empty, the `Last used:` side never is. -/
theorem join_desc_last_used (desc lu : String) :
    py_join "; " (([desc, "Last used: " ++ lu]).filter (fun p => p ≠ "")) =
      (if desc = "" then "" else desc ++ "; ") ++ ("Last used: " ++ lu) := by
  by_cases hd : desc = ""
  · simp [hd, List.filter, last_used_ne_empty lu, py_join]
  · simp [hd, List.filter, last_used_ne_empty lu, py_join, String.append_assoc]

/-- C8 counterexample: the source's `f"Last used: {last_used}"` is non-empty
even when the timestamp is empty, so the filter never drops it: the entry
with empty `LastUsedAt` yields description `"layer; Last used: "`, not the
claim's `"layer"` (no `Last used:` clause). -/
theorem C8_counterexample :
    ((build_plan_build_cache c8_client).1.map PruneItem.description) = ["layer; Last used: "]
      ∧ ((build_plan_build_cache c8_client).1.map PruneItem.description) ≠ ["layer"] := by
  decide

/-- C8 (amended): in-use entries are never candidates, and each remaining
entry's description is its description field and `"Last used: <timestamp>"`
joined with `"; "`, where only the description side is omitted when empty —
the `"Last used: "` clause is always present, even for an empty timestamp. -/
theorem C8_amended_build_cache_plan (client : APIClient) :
    (build_plan_build_cache client).1 =
      (client.df_build_cache.filter (fun entry => !entry.InUse)).map (fun entry =>
        { item_type := "BuildCache", item_id := short_id entry.ID,
          name := entry.Description, size := entry.Size,
          human_size := human_size entry.Size,
          description := (if entry.Description = "" then "" else entry.Description ++ "; ")
            ++ ("Last used: " ++ entry.LastUsedAt) }) := by
  rw [build_plan_build_cache_char]
  show client.df_build_cache.flatMap build_cache_emit = _
  induction client.df_build_cache with
  | nil => rfl
  | cons e es ih =>
      cases hu : e.InUse with
      | true => simpa [build_cache_emit, hu, List.filter_cons] using ih
      | false =>
          have hhead : build_cache_emit e =
              [{ item_type := "BuildCache", item_id := short_id e.ID,
                 name := e.Description, size := e.Size,
                 human_size := human_size e.Size,
                 description := (if e.Description = "" then "" else e.Description ++ "; ")
                   ++ ("Last used: " ++ e.LastUsedAt) }] := by
            simp only [build_cache_emit, hu, Bool.false_eq_true, if_false]
            rw [join_desc_last_used]
          rw [List.flatMap_cons, hhead]
          simp [hu, List.filter_cons, ih]

/-- A network whose name is not reserved, whose inspection succeeds and
reports no attached containers, contributes exactly its candidate item. -/
theorem network_emit_eligible {inspect : String → Option NetworkDetail}
    {net : NetworkRecord} {d : NetworkDetail}
    (hres : net.Name ∉ (["bridge", "host", "none"] : List String))
    (hi : inspect net.Id = some d) (hd : d.Containers = []) :
    network_emit inspect net =
      [{ item_type := "Network", item_id := short_id net.Id, name := net.Name, size := 0,
         human_size := "0B", description := "Unused network" }] := by
  have hb : (decide (net.Name = "bridge") || decide (net.Name = "host")
      || decide (net.Name = "none")) = false := by
    simp only [List.mem_cons, List.mem_singleton, not_or] at hres
    simp [hres.1, hres.2.1, hres.2.2]
  simp only [network_emit, hb, Bool.false_eq_true, if_false, hi, hd]
  simp

/-- A network whose inspection fails contributes nothing. -/
theorem network_emit_failed {inspect : String → Option NetworkDetail}
    {net : NetworkRecord} (hi : inspect net.Id = none) :
    network_emit inspect net = [] := by
  simp only [network_emit, hi]
  split <;> rfl

/-- C9: when the per-network inspection call fails for exactly one of three
otherwise-eligible networks, the Network planner's plan consists of the
candidates for the other two, in listing order — the failed network is
silently excluded and no error propagates (the planner is a total
function). -/
theorem C9_inspection_failure_excludes_only_that_network (client : APIClient)
    (n1 n2 n3 : NetworkRecord) (d1 d3 : NetworkDetail)
    (hnets : client.networks = [n1, n2, n3])
    (h1 : n1.Name ∉ (["bridge", "host", "none"] : List String))
    (_h2 : n2.Name ∉ (["bridge", "host", "none"] : List String))
    (h3 : n3.Name ∉ (["bridge", "host", "none"] : List String))
    (hi1 : client.inspect_network n1.Id = some d1) (hd1 : d1.Containers = [])
    (hi2 : client.inspect_network n2.Id = none)
    (hi3 : client.inspect_network n3.Id = some d3) (hd3 : d3.Containers = []) :
    (build_plan_network client).1 =
      [{ item_type := "Network", item_id := short_id n1.Id, name := n1.Name, size := 0,
         human_size := "0B", description := "Unused network" },
       { item_type := "Network", item_id := short_id n3.Id, name := n3.Name, size := 0,
         human_size := "0B", description := "Unused network" }] := by
  rw [build_plan_network_char, hnets]
  show ([n1, n2, n3].flatMap (network_emit client.inspect_network)) = _
  rw [List.flatMap_cons, List.flatMap_cons, List.flatMap_cons, List.flatMap_nil,
    network_emit_eligible h1 hi1 hd1, network_emit_failed hi2,
    network_emit_eligible h3 hi3 hd3]
  rfl

/-- C9 witness: the concrete three-network scenario. -/
theorem C9_inspection_failure_excludes_only_that_network_witness :
    (build_plan_network c9_client).1 =
      [{ item_type := "Network", item_id := short_id "na", name := "net-a", size := 0,
         human_size := "0B", description := "Unused network" },
       { item_type := "Network", item_id := short_id "nc", name := "net-c", size := 0,
         human_size := "0B", description := "Unused network" }] :=
  C9_inspection_failure_excludes_only_that_network c9_client
    { Id := "na", Name := "net-a" } { Id := "nb", Name := "net-b" }
    { Id := "nc", Name := "net-c" } {} {}
    rfl (by decide) (by decide) (by decide) rfl rfl rfl rfl rfl

/-- Strings with equal character lists are equal. -/
theorem string_ext_toList {s t : String} (h : s.toList = t.toList) : s = t := by
  cases s
  cases t
  exact congrArg String.mk h

/-- The truncation step always leaves at most `n` characters. -/
theorem mk_take_length_le (l : List Char) (n : Nat) : (String.mk (l.take n)).length ≤ n := by
  show (l.take n).length ≤ n
  simp [List.length_take]

/-- `short_id` never returns more than 12 characters. -/
theorem short_id_length_le (s : String) : (short_id s).length ≤ 12 := by
  rw [short_id]
  split
  · decide
  · exact mk_take_length_le _ 12

/-- `short_id` on a digest-prefixed identifier: the prefix is stripped, then
the remainder truncated to 12 characters. -/
theorem short_id_sha256_append (t : String) :
    short_id ("sha256:" ++ t) = String.mk (t.toList.take 12) := by
  have hne : ¬("sha256:" ++ t) = "" := by
    intro h
    have h1 := congrArg String.length h
    rw [String.length_append] at h1
    have h7 : ("sha256:" : String).length = 7 := rfl
    have h0 : ("" : String).length = 0 := rfl
    rw [h7, h0] at h1
    omega
  have hsw : py_startswith ("sha256:" ++ t) "sha256:" = true := by
    simp [py_startswith, List.isPrefixOf_iff_prefix]
  rw [short_id, if_neg hne, hsw]
  have hdrop : (("sha256:" ++ t).toList.dropWhile (fun c => c ≠ ':')) = ':' :: t.toList := rfl
  simp only [if_pos rfl]
  rw [hdrop]
  rfl

/-- `short_id` on an identifier without the digest prefix: plain truncation
to 12 characters. -/
theorem short_id_no_sha256 (s : String) (h : py_startswith s "sha256:" = false) :
    short_id s = String.mk (s.toList.take 12) := by
  by_cases he : s = ""
  · subst he
    rfl
  · rw [short_id, if_neg he, h]
    simp

/-- On input of at most 12 characters, `short_id` is idempotent. -/
theorem short_id_idem_of_short (s : String) (hl : s.length ≤ 12) :
    short_id (short_id s) = short_id s := by
  cases hsw : py_startswith s "sha256:" with
  | false =>
      have h1 : short_id s = s := by
        rw [short_id_no_sha256 s hsw]
        refine string_ext_toList ?_
        show s.toList.take 12 = s.toList
        exact List.take_of_length_le hl
      rw [h1]
      exact h1
  | true =>
      obtain ⟨rest, hrest⟩ := List.isPrefixOf_iff_prefix.mp hsw
      have hs : s = "sha256:" ++ String.mk rest := by
        refine string_ext_toList ?_
        show s.toList = "sha256:".toList ++ rest
        exact hrest.symm
      have hlen : rest.length ≤ 5 := by
        have := congrArg List.length hrest
        rw [List.length_append] at this
        have h7 : ("sha256:" : String).toList.length = 7 := rfl
        rw [h7] at this
        have hsl : s.toList.length ≤ 12 := hl
        omega
      have h2 : short_id s = String.mk rest := by
        rw [hs, short_id_sha256_append]
        have : (String.mk rest).toList.take 12 = rest := by
          show rest.take 12 = rest
          exact List.take_of_length_le (by omega)
        rw [this]
      have h3 : py_startswith (String.mk rest) "sha256:" = false := by
        cases hv : py_startswith (String.mk rest) "sha256:" with
        | false => rfl
        | true =>
            obtain ⟨r2, hr2⟩ := List.isPrefixOf_iff_prefix.mp hv
            have := congrArg List.length hr2
            rw [List.length_append] at this
            have h7 : ("sha256:" : String).toList.length = 7 := rfl
            rw [h7] at this
            have : (String.mk rest).toList.length = rest.length := rfl
            omega
      rw [h2, short_id_no_sha256 _ h3]
      have : (String.mk rest).toList.take 12 = rest := by
        show rest.take 12 = rest
        exact List.take_of_length_le (by omega)
      rw [this]

/-- C7: `short_id` is total on arbitrary strings (it is a Lean function),
always returns at most 12 characters, strips a leading `sha256:` prefix
before truncating to the first 12 characters (the whole remainder when
shorter), truncates plain identifiers directly, and is idempotent on input
of at most 12 characters. -/
theorem C7_short_id_contract (s t : String) :
    (short_id s).length ≤ 12
  ∧ short_id ("sha256:" ++ t) = String.mk (t.toList.take 12)
  ∧ (py_startswith s "sha256:" = false → short_id s = String.mk (s.toList.take 12))
  ∧ (s.length ≤ 12 → short_id (short_id s) = short_id s) :=
  ⟨short_id_length_le s, short_id_sha256_append t,
   short_id_no_sha256 s, short_id_idem_of_short s⟩

/-- C7 witness: the contract applied at concrete identifiers, with both
implications discharged. -/
theorem C7_short_id_contract_witness :
    (short_id "sha256:ab").length ≤ 12
  ∧ short_id ("sha256:" ++ "ab") = String.mk ("ab".toList.take 12)
  ∧ short_id "plain-id" = String.mk ("plain-id".toList.take 12)
  ∧ short_id (short_id "sha256:ab") = short_id "sha256:ab" :=
  ⟨(C7_short_id_contract "sha256:ab" "ab").1,
   (C7_short_id_contract "sha256:ab" "ab").2.1,
   (C7_short_id_contract "plain-id" "ab").2.2.1 (by decide),
   (C7_short_id_contract "sha256:ab" "ab").2.2.2 (by decide)⟩

/-- A 64-hex string is non-empty and carries no `sha256:` prefix, so a
container exposing it as its image name registers `sha256:` ++ it in the
used-images set. -/
theorem sha256_mem_collect_used_images {containers : List ContainerRecord}
    {container : ContainerRecord} {h : String}
    (hc : container ∈ containers) (hid : container.ImageID = "")
    (hname : container.Image = h) (hhex : full_hex64 h = true) :
    ("sha256:" ++ h) ∈ collect_used_images containers := by
  have hne : h ≠ "" := by
    intro he
    rw [he] at hhex
    simp [full_hex64] at hhex
  have hall : h.toList.all is_lower_hex = true := by
    have := hhex
    simp only [full_hex64, Bool.and_eq_true] at this
    exact this.2
  have hsw : py_startswith h "sha256:" = false := by
    cases hv : py_startswith h "sha256:" with
    | false => rfl
    | true =>
        exfalso
        obtain ⟨r2, hr2⟩ := List.isPrefixOf_iff_prefix.mp hv
        have hcol : ':' ∈ h.toList := by
          rw [← hr2]
          refine List.mem_append.mpr (Or.inl ?_)
          decide
        have := (List.all_eq_true.mp hall) ':' hcol
        simp [is_lower_hex] at this
  unfold collect_used_images
  refine List.mem_flatMap.mpr ⟨container, hc, ?_⟩
  rw [hid, hname]
  simp [hne, hsw, hhex, normalize_image_id]

/-- C4: for a snapshot holding an image with identifier `sha256:` ++ h for a
64-character lowercase-hex h, and a container whose image-id field is empty
while its image-name field equals h, the Image planner with
`include_all = true` does not list that image: its plan (and total) equals
the plan for the same snapshot with that image removed from the listing. -/
theorem C4_bare_digest_container_excludes_image (client : APIClient)
    (h : String) (container : ContainerRecord) (image : ImageRecord)
    (pre post : List ImageRecord)
    (hhex : full_hex64 h = true)
    (himg : image.Id = "sha256:" ++ h)
    (hc : container ∈ client.containers_all)
    (hid : container.ImageID = "")
    (hname : container.Image = h)
    (hlist : client.images_all = pre ++ image :: post) :
    build_plan_image client true =
      build_plan_image { client with images_all := pre ++ post } true := by
  have hmem : ("sha256:" ++ h) ∈ collect_used_images client.containers_all :=
    sha256_mem_collect_used_images hc hid hname hhex
  have hemit : image_emit client.iso_ts
      (collect_used_images client.containers_all) true image = [] := by
    simp only [image_emit, himg]
    simp [hmem]
  have hcontrib : image_size_contrib
      (collect_used_images client.containers_all) true image = 0 := by
    simp only [image_size_contrib, himg]
    simp [hmem]
  rw [build_plan_image_char, build_plan_image_char]
  simp only [if_pos rfl]
  show (client.images_all.flatMap _, _) = ((pre ++ post).flatMap _, _)
  rw [hlist]
  simp [List.flatMap_append, List.map_append, hemit, hcontrib]

/-- C4 witness: the exclusion at a concrete snapshot — with the image the
only listed one, the include-all image plan equals the plan with it
removed. -/
theorem C4_bare_digest_container_excludes_image_witness :
    build_plan_image c4_client true =
      build_plan_image { c4_client with images_all := [] ++ [] } true :=
  C4_bare_digest_container_excludes_image c4_client c4_hex c4_container c4_image
    [] [] (by decide) rfl (by decide) rfl rfl rfl
